import Mathlib

/-!
Shallow embedding of the libyaml-rust event-stream parsing layer
(src/yaml/parser.rs together with src/yaml/lib.rs), plus a model of the
parts the sources reference but do not contain: the ffi module (types and
entry points of the external libyaml engine, which the spec treats as an
opaque black box) and the event module (the typed event model).  Every
definition taken from the spec rather than the Rust sources is marked
with a doc comment starting with Modelled from the spec.
-/

/-- Modelled from the spec: the ffi module is not among the sources.  The
engine-level error codes form the closed enumeration of the kinds the engine
can report in its error field (spec section 3, ErrorKind). -/
inductive yaml_error_type_t
  | YAML_NO_ERROR
  | YAML_MEMORY_ERROR
  | YAML_READER_ERROR
  | YAML_SCANNER_ERROR
  | YAML_PARSER_ERROR
  | YAML_COMPOSER_ERROR
  | YAML_WRITER_ERROR
  | YAML_EMITTER_ERROR
deriving DecidableEq

/-- Modelled from the spec: the engine mark record, a byte index plus line and
column (ffi yaml_mark_t). -/
structure yaml_mark_t where
  index : Nat
  line : Nat
  column : Nat
deriving DecidableEq

/-- Error kinds of the binding, parser.rs lines 11 to 20. -/
inductive YamlErrorType
  | YamlNoError
  | YamlMemoryError
  | YamlReaderError
  | YamlScannerError
  | YamlParserError
  | YamlComposerError
  | YamlWriterError
  | YamlEmitterError
deriving DecidableEq

/-- Mark record of the binding, parser.rs lines 24 to 28. -/
structure YamlMark where
  index : Nat
  line : Nat
  column : Nat
deriving DecidableEq

/-- Conversion from the engine mark, parser.rs lines 31 to 37. -/
def YamlMark.conv (mark : yaml_mark_t) : YamlMark :=
  { index := mark.index, line := mark.line, column := mark.column }

/-- Structured error of the binding, parser.rs lines 42 to 49. -/
structure YamlError where
  kind : YamlErrorType
  problem : Option String
  byte_offset : Nat
  problem_mark : YamlMark
  context : Option String
  context_mark : YamlMark
deriving DecidableEq

/-- Modelled from the spec: stream encodings (spec section 3). -/
inductive YamlEncoding
  | YamlAnyEncoding
  | YamlUtf8Encoding
  | YamlUtf16LeEncoding
  | YamlUtf16BeEncoding
deriving DecidableEq

/-- Modelled from the spec: scalar styles (spec section 3). -/
inductive YamlScalarStyle
  | YamlPlainScalarStyle
  | YamlSingleQuotedScalarStyle
  | YamlDoubleQuotedScalarStyle
  | YamlLiteralScalarStyle
  | YamlFoldedScalarStyle
deriving DecidableEq

/-- Modelled from the spec: sequence styles; mappings share the same style
domain (spec section 3). -/
inductive YamlSequenceStyle
  | YamlBlockSequenceStyle
  | YamlFlowSequenceStyle
deriving DecidableEq

/-- Modelled from the spec: parameters of sequence and mapping start events;
the mapping tests of parser.rs reuse this record for mapping starts. -/
structure YamlSequenceParam where
  anchor : Option String
  tag : Option String
  implicit : Bool
  style : YamlSequenceStyle
deriving DecidableEq

/-- Modelled from the spec: parameters of scalar events; the value is an owned
byte sequence. -/
structure YamlScalarParam where
  anchor : Option String
  tag : Option String
  value : List UInt8
  plain_implicit : Bool
  quoted_implicit : Bool
  style : YamlScalarStyle
deriving DecidableEq

/-- Modelled from the spec: the typed event model (the event module is not
among the sources).  Every payload referenced by an event is an owned copy. -/
inductive YamlEvent
  | YamlNoEvent
  | YamlStreamStartEvent (encoding : YamlEncoding)
  | YamlStreamEndEvent
  | YamlDocumentStartEvent (version : Option (Int × Int))
      (tag_directives : List (String × String)) (implicit : Bool)
  | YamlDocumentEndEvent (implicit : Bool)
  | YamlAliasEvent (anchor : String)
  | YamlScalarEvent (p : YamlScalarParam)
  | YamlSequenceStartEvent (p : YamlSequenceParam)
  | YamlSequenceEndEvent
  | YamlMappingStartEvent (p : YamlSequenceParam)
  | YamlMappingEndEvent
deriving DecidableEq

/-- Modelled from the spec: one observable engine step outcome, either one
decoded event or a failure together with the error-state fields the engine
sets on failure (kind code, problem string, problem offset, problem mark,
context mark; spec section 6). -/
inductive EngineStep
  | ok (evt : YamlEvent)
  | fail (error : yaml_error_type_t) (problem : Option String)
      (problem_offset : Nat) (problem_mark : yaml_mark_t)
      (context_mark : yaml_mark_t)
deriving DecidableEq

/-- Modelled from the spec: the opaque engine state, restricted to the
error-state fields the binding reads, plus the sequence of step outcomes the
black-box engine will still produce.  The outcomes are fully determined by
the byte stream the engine was configured with. -/
structure yaml_parser_t where
  steps : List EngineStep
  error : yaml_error_type_t
  problem : Option String
  problem_offset : Nat
  problem_mark : yaml_mark_t
  context_mark : yaml_mark_t
deriving DecidableEq

/-- Modelled from the spec: a freshly created, not yet configured engine
state. -/
def yaml_parser_t.new : yaml_parser_t :=
  { steps := []
    error := yaml_error_type_t.YAML_NO_ERROR
    problem := none
    problem_offset := 0
    problem_mark := { index := 0, line := 0, column := 0 }
    context_mark := { index := 0, line := 0, column := 0 } }

/-- Modelled from the spec: one engine step.  On success the engine yields one
event, and after the final stream-end event it keeps yielding the no-event
sentinel; on failure it yields no event and stores its error fields
(spec sections 4.1 and 6). -/
def yaml_parser_parse (p : yaml_parser_t) : Option YamlEvent × yaml_parser_t :=
  match p.steps with
  | [] => (some YamlEvent.YamlNoEvent, p)
  | EngineStep.ok evt :: rest => (some evt, { p with steps := rest })
  | EngineStep.fail e pb off pm cm :: rest =>
      (none,
        { p with
          steps := rest
          error := e
          problem := pb
          problem_offset := off
          problem_mark := pm
          context_mark := cm })

/-- Base parser owning the engine state, parser.rs lines 112 to 114. -/
structure YamlBaseParser where
  parser_mem : yaml_parser_t
deriving DecidableEq

/-- Fresh base parser, parser.rs lines 117 to 121. -/
def YamlBaseParser.new : YamlBaseParser :=
  { parser_mem := yaml_parser_t.new }

/-- Input-buffer binding, parser.rs lines 127 to 129.  The engine side is
modelled from the spec: after configuration the black-box engine will produce
the outcomes determined by the bytes, given by the abstract engine model em. -/
def YamlBaseParser.set_input_string (em : List UInt8 → List EngineStep)
    (p : YamlBaseParser) (input : List UInt8) : YamlBaseParser :=
  { parser_mem := { p.parser_mem with steps := em input } }

/-- One parse step of the base parser, parser.rs lines 131 to 133. -/
def YamlBaseParser.parse (p : YamlBaseParser) :
    Option YamlEvent × YamlBaseParser :=
  match yaml_parser_parse p.parser_mem with
  | (r, m) => (r, { parser_mem := m })

/-- Error extraction, parser.rs lines 135 to 155.  The match on the engine
error code covers seven of the eight codes; the catch-all branch of the source
aborts the process, modelled here as none.  Both the problem and the context
fields of the result are read from the problem field of the engine state,
exactly as lines 149 and 152 of the source do. -/
def YamlBaseParser.get_error (p : YamlBaseParser) : Option YamlError :=
  let kind? : Option YamlErrorType :=
    match p.parser_mem.error with
    | yaml_error_type_t.YAML_NO_ERROR => some YamlErrorType.YamlNoError
    | yaml_error_type_t.YAML_READER_ERROR => some YamlErrorType.YamlReaderError
    | yaml_error_type_t.YAML_SCANNER_ERROR => some YamlErrorType.YamlScannerError
    | yaml_error_type_t.YAML_PARSER_ERROR => some YamlErrorType.YamlParserError
    | yaml_error_type_t.YAML_COMPOSER_ERROR => some YamlErrorType.YamlComposerError
    | yaml_error_type_t.YAML_WRITER_ERROR => some YamlErrorType.YamlWriterError
    | yaml_error_type_t.YAML_EMITTER_ERROR => some YamlErrorType.YamlEmitterError
    | _ => none
  match kind? with
  | none => none
  | some kind =>
      some { kind := kind
             problem := p.parser_mem.problem
             byte_offset := p.parser_mem.problem_offset
             problem_mark := YamlMark.conv p.parser_mem.problem_mark
             context := p.parser_mem.problem
             context_mark := YamlMark.conv p.parser_mem.context_mark }

/-- State-passing form of get_error.  The Rust method takes the base parser by
immutable reference and only reads engine fields (the problem strings are
copied without taking ownership), so its post-state equals its input state. -/
def YamlBaseParser.get_error_st (p : YamlBaseParser) :
    Option YamlError × YamlBaseParser :=
  (YamlBaseParser.get_error p, p)

/-- Modelled from the spec: the event module decodes one raw engine event into
the typed event, copying every payload out of engine memory before the next
step invalidates it.  Engine steps in this embedding already carry the
decoded, owned event, so the decode is the identity here. -/
def YamlEvent.load (evt : YamlEvent) : YamlEvent := evt

/-- Default step method of the YamlParser trait, parser.rs lines 69 to 79. -/
def YamlParser.parse_event (p : YamlBaseParser) :
    Option YamlEvent × YamlBaseParser :=
  match YamlBaseParser.parse p with
  | (none, p2) => (none, p2)
  | (some evt, p2) => (some (YamlEvent.load evt), p2)

/-- One step of the event stream, parser.rs lines 56 to 64.  A none outcome in
the first component models an abort inside get_error propagating out of
next_event. -/
def YamlEventStream.next_event (p : YamlBaseParser) :
    Option (Except YamlError YamlEvent) × YamlBaseParser :=
  match YamlParser.parse_event p with
  | (some evt, p2) => (some (Except.ok evt), p2)
  | (none, p2) =>
      match YamlBaseParser.get_error p2 with
      | some err => (some (Except.error err), p2)
      | none => (none, p2)

/-- Modelled from the spec: kinds of read failure of the pull-based byte
source; end-of-input is distinguished from genuine input failures (spec
section 4.3). -/
inductive IoErrorKind
  | EndOfFile
  | PermissionDenied
  | OtherIoError
deriving DecidableEq

/-- Modelled from the spec: a pull-based byte source, given as the queue of
outcomes its successive read calls produce; an exhausted queue keeps
reporting end-of-input, as the in-memory buffer reader of the tests does. -/
abbrev ReaderState := List (Except IoErrorKind (List UInt8))

/-- Modelled from the spec: one read call on the pull-based source. -/
def Reader.read (r : ReaderState) :
    Except IoErrorKind (List UInt8) × ReaderState :=
  match r with
  | [] => (Except.error IoErrorKind.EndOfFile, [])
  | res :: rest => (res, rest)

/-- Outputs of one callback invocation: the value written into the
bytes-written out-parameter (none when the callback leaves it unwritten), the
returned flag, and the bytes placed into the engine buffer. -/
structure CbOut where
  size_read : Option Nat
  flag : Int
  delivered : List UInt8
deriving DecidableEq

/-- Callback bridge, parser.rs lines 88 to 110: a successful read of a chunk
writes the chunk length and returns 1; an end-of-file failure writes 0 and
returns 1; any other read failure returns 0 without writing. -/
def handle_reader_cb (r : ReaderState) : CbOut × ReaderState :=
  match Reader.read r with
  | (Except.ok buf, r2) =>
      ({ size_read := some buf.length, flag := 1, delivered := buf }, r2)
  | (Except.error IoErrorKind.EndOfFile, r2) =>
      ({ size_read := some 0, flag := 1, delivered := [] }, r2)
  | (Except.error _, r2) =>
      ({ size_read := none, flag := 0, delivered := [] }, r2)

/-- Modelled from the spec: the engine pulls its input by invoking the
registered callback repeatedly; a success flag with zero bytes written means
end of stream, a failure flag means a reader error, yielding none here.  On
the exhausted reader the callback writes zero and signals success, so the
pull ends with the bytes accumulated so far. -/
def enginePullInput : ReaderState → List UInt8 → Option (List UInt8)
  | [], acc => some acc
  | res :: rest, acc =>
      match handle_reader_cb (res :: rest) with
      | (out, _) =>
          if out.flag = 0 then none
          else if out.size_read = some 0 then some acc
          else enginePullInput rest (acc ++ out.delivered)

/-- Byte parser construction, parser.rs lines 176 to 191.  The outcome of the
engine initialize call (an ffi call, modelled from the spec) is the Boolean
argument; a failed initialize makes the constructor abort, modelled as none,
while a successful one returns the parser with the input buffer already
bound. -/
def YamlByteParser.init (em : List UInt8 → List EngineStep)
    (bytes : List UInt8) (initOk : Bool) : Option YamlBaseParser :=
  if initOk then
    some (YamlBaseParser.set_input_string em YamlBaseParser.new bytes)
  else
    none

/-- Modelled from the spec: engine step outcomes after a reader failure while
pulling input, surfaced as a reader error of the engine. -/
def readerFailSteps : List EngineStep :=
  [EngineStep.fail yaml_error_type_t.YAML_READER_ERROR (some "input error") 0
      { index := 0, line := 0, column := 0 }
      { index := 0, line := 0, column := 0 }]

/-- Modelled from the spec: binding the callback input source.  The black-box
engine behaviour depends only on the byte stream the callback delivers, so
the step outcomes are the engine model applied to the pulled bytes. -/
def yaml_parser_set_input (em : List UInt8 → List EngineStep)
    (p : YamlBaseParser) (r : ReaderState) : YamlBaseParser :=
  { parser_mem :=
      { p.parser_mem with
        steps :=
          match enginePullInput r [] with
          | some bs => em bs
          | none => readerFailSteps } }

/-- Streaming parser construction, parser.rs lines 204 to 221, with the
initialize outcome abstracted exactly as for the byte parser. -/
def YamlIoParser.init (em : List UInt8 → List EngineStep)
    (r : ReaderState) (initOk : Bool) : Option YamlBaseParser :=
  if initOk then
    some (yaml_parser_set_input em YamlBaseParser.new r)
  else
    none

/-- Outcome of driving an event stream to completion, as the test drivers of
parser.rs lines 250 to 262 do: collect events until the no-event sentinel,
stop with the error on a failed step, abort when error extraction aborts. -/
inductive StreamOutcome
  | ended (events : List YamlEvent)
  | failed (events : List YamlEvent) (err : YamlError)
  | aborted (events : List YamlEvent)
  | outOfFuel (events : List YamlEvent)
deriving DecidableEq

/-- Fuel-indexed driver loop over next_event. -/
def runStreamAux : Nat → YamlBaseParser → List YamlEvent → StreamOutcome
  | 0, _, acc => StreamOutcome.outOfFuel acc.reverse
  | Nat.succ fuel, p, acc =>
      match YamlEventStream.next_event p with
      | (some (Except.ok YamlEvent.YamlNoEvent), _) =>
          StreamOutcome.ended acc.reverse
      | (some (Except.ok evt), p2) => runStreamAux fuel p2 (evt :: acc)
      | (some (Except.error err), _) => StreamOutcome.failed acc.reverse err
      | (none, _) => StreamOutcome.aborted acc.reverse

/-- Driving a parser to completion.  One unit of fuel per pending engine step
plus one final unit for the no-event sentinel always suffices, since every
step consumes one pending outcome. -/
def runStream (p : YamlBaseParser) : StreamOutcome :=
  runStreamAux (p.parser_mem.steps.length + 1) p []

/-- Bytes of the flow sequence input of the byte and io tests: left bracket,
1, comma, space, 2, comma, space, 3, right bracket. -/
def seq123Input : List UInt8 := [91, 49, 44, 32, 50, 44, 32, 51, 93]

/-- Bytes of the malformed input of the error test: a double quote followed
by the letters a and b. -/
def abInput : List UInt8 := [34, 97, 98]

/-- Bytes of the flow mapping input of the mapping test. -/
def mappingInput : List UInt8 :=
  [123, 34, 97, 34, 58, 32, 49, 44, 32, 34, 98, 34, 58, 50, 125]

/-- Modelled from the spec: the event sequence the engine produces for the
flow sequence input (spec section 8, first property). -/
def seq123Events : List YamlEvent :=
  [YamlEvent.YamlStreamStartEvent YamlEncoding.YamlUtf8Encoding,
   YamlEvent.YamlDocumentStartEvent none [] true,
   YamlEvent.YamlSequenceStartEvent
     { anchor := none, tag := none, implicit := true,
       style := YamlSequenceStyle.YamlFlowSequenceStyle },
   YamlEvent.YamlScalarEvent
     { anchor := none, tag := none, value := [49], plain_implicit := true,
       quoted_implicit := false,
       style := YamlScalarStyle.YamlPlainScalarStyle },
   YamlEvent.YamlScalarEvent
     { anchor := none, tag := none, value := [50], plain_implicit := true,
       quoted_implicit := false,
       style := YamlScalarStyle.YamlPlainScalarStyle },
   YamlEvent.YamlScalarEvent
     { anchor := none, tag := none, value := [51], plain_implicit := true,
       quoted_implicit := false,
       style := YamlScalarStyle.YamlPlainScalarStyle },
   YamlEvent.YamlSequenceEndEvent,
   YamlEvent.YamlDocumentEndEvent true,
   YamlEvent.YamlStreamEndEvent]

/-- Modelled from the spec: the event sequence the engine produces for the
flow mapping input (spec section 8, second property). -/
def mappingEvents : List YamlEvent :=
  [YamlEvent.YamlStreamStartEvent YamlEncoding.YamlUtf8Encoding,
   YamlEvent.YamlDocumentStartEvent none [] true,
   YamlEvent.YamlMappingStartEvent
     { anchor := none, tag := none, implicit := true,
       style := YamlSequenceStyle.YamlFlowSequenceStyle },
   YamlEvent.YamlScalarEvent
     { anchor := none, tag := none, value := [97], plain_implicit := false,
       quoted_implicit := true,
       style := YamlScalarStyle.YamlDoubleQuotedScalarStyle },
   YamlEvent.YamlScalarEvent
     { anchor := none, tag := none, value := [49], plain_implicit := true,
       quoted_implicit := false,
       style := YamlScalarStyle.YamlPlainScalarStyle },
   YamlEvent.YamlScalarEvent
     { anchor := none, tag := none, value := [98], plain_implicit := false,
       quoted_implicit := true,
       style := YamlScalarStyle.YamlDoubleQuotedScalarStyle },
   YamlEvent.YamlScalarEvent
     { anchor := none, tag := none, value := [50], plain_implicit := true,
       quoted_implicit := false,
       style := YamlScalarStyle.YamlPlainScalarStyle },
   YamlEvent.YamlMappingEndEvent,
   YamlEvent.YamlDocumentEndEvent true,
   YamlEvent.YamlStreamEndEvent]

/-- Modelled from the spec: the failing step of the engine on the unterminated
double-quoted scalar; the scanner reports its problem mark at the end of the
three-byte input, at or after the opening quote at index 0 (spec section 8,
third property). -/
def abFailStep : EngineStep :=
  EngineStep.fail yaml_error_type_t.YAML_SCANNER_ERROR
    (some "found unexpected end of stream") 3
    { index := 3, line := 0, column := 3 }
    { index := 0, line := 0, column := 0 }

/-- Modelled from the spec: the observable outcomes of the black-box engine
on the three inputs the spec pins down; other inputs are left
unconstrained. -/
def specEngineModel (input : List UInt8) : List EngineStep :=
  if input = seq123Input then seq123Events.map EngineStep.ok
  else if input = abInput then
    [EngineStep.ok (YamlEvent.YamlStreamStartEvent YamlEncoding.YamlUtf8Encoding),
     abFailStep]
  else if input = mappingInput then mappingEvents.map EngineStep.ok
  else []

/-- Concrete engine state carrying a given error code, used to evaluate
get_error on each code of the enumeration. -/
def errState (c : yaml_error_type_t) : YamlBaseParser :=
  { parser_mem :=
      { steps := []
        error := c
        problem := some "problem"
        problem_offset := 2
        problem_mark := { index := 2, line := 0, column := 2 }
        context_mark := { index := 1, line := 0, column := 1 } } }

/-- Byte parser state right after construction on the malformed input. -/
def abParser0 : YamlBaseParser :=
  YamlBaseParser.set_input_string specEngineModel YamlBaseParser.new abInput

/-- Parser state after the first, successful step on the malformed input. -/
def abParser1 : YamlBaseParser :=
  { parser_mem := { yaml_parser_t.new with steps := [abFailStep] } }

/-- Parser state after the second, failing step on the malformed input: no
pending outcomes remain and the error fields of the engine are set. -/
def abParser2 : YamlBaseParser :=
  { parser_mem :=
      { steps := []
        error := yaml_error_type_t.YAML_SCANNER_ERROR
        problem := some "found unexpected end of stream"
        problem_offset := 3
        problem_mark := { index := 3, line := 0, column := 3 }
        context_mark := { index := 0, line := 0, column := 0 } } }

/-- Error value extracted after the failing step on the malformed input. -/
def abError : YamlError :=
  { kind := YamlErrorType.YamlScannerError
    problem := some "found unexpected end of stream"
    byte_offset := 3
    problem_mark := { index := 3, line := 0, column := 3 }
    context := some "found unexpected end of stream"
    context_mark := { index := 0, line := 0, column := 0 } }

/-- Chunk split of the flow sequence input used to exercise the streaming
reader path. -/
def chunksW : List (List UInt8) := [[91, 49, 44, 32], [50, 44, 32, 51, 93]]

/-- Byte parser state of the refinement witness. -/
def pbW : YamlBaseParser :=
  YamlBaseParser.set_input_string specEngineModel YamlBaseParser.new
    chunksW.flatten

/-- Streaming parser state of the refinement witness. -/
def pioW : YamlBaseParser :=
  yaml_parser_set_input specEngineModel YamlBaseParser.new
    (chunksW.map Except.ok)

/-- Reader used by the callback-bridge witness: one successful chunk, then a
non-end-of-file failure. -/
def r5ok : ReaderState :=
  [Except.ok [10, 20], Except.error IoErrorKind.OtherIoError]

deriving instance DecidableEq for Except

/-- Error value that get_error extracts from the scanner-error evaluation
state errState. -/
def c8err : YamlError :=
  { kind := YamlErrorType.YamlScannerError
    problem := some "problem"
    byte_offset := 2
    problem_mark := { index := 2, line := 0, column := 2 }
    context := some "problem"
    context_mark := { index := 1, line := 0, column := 1 } }

/-- Pulling from a reader made of successful nonempty chunks delivers the
concatenation of the chunks. -/
theorem enginePullInput_chunks (chunks : List (List UInt8)) (acc : List UInt8)
    (h : ∀ c ∈ chunks, c ≠ []) :
    enginePullInput (chunks.map Except.ok) acc =
      some (acc ++ chunks.flatten) := by
  induction chunks generalizing acc with
  | nil => simp [enginePullInput]
  | cons c cs ih =>
      have hcne : c ≠ [] := h c (List.mem_cons_self c cs)
      have hc : ¬ (some c.length = some (0 : Nat)) := by
        intro hEq
        exact hcne (List.length_eq_zero.mp (Option.some.inj hEq))
      have hcs : ∀ d ∈ cs, d ≠ [] := fun d hd => h d (List.mem_cons_of_mem c hd)
      simp only [List.map_cons, enginePullInput, handle_reader_cb, Reader.read]
      rw [if_neg (by decide), if_neg hc, ih (acc ++ c) hcs]
      simp

/-- Claim C1: the source spec asserts that error extraction returns exactly
one Error with the matching kind for every code of the closed enumeration and
that the unknown-error abort branch is unreachable.  The extraction does map
the seven handled codes to their kinds, but on the memory-error code, a
member of the enumeration, it reaches the catch-all abort branch and
produces no Error at all. -/
theorem claim_C1_get_error_memory_error_aborts :
    YamlBaseParser.get_error (errState yaml_error_type_t.YAML_MEMORY_ERROR) =
      none ∧
    (YamlBaseParser.get_error (errState yaml_error_type_t.YAML_NO_ERROR)).map
      YamlError.kind = some YamlErrorType.YamlNoError ∧
    (YamlBaseParser.get_error (errState yaml_error_type_t.YAML_READER_ERROR)).map
      YamlError.kind = some YamlErrorType.YamlReaderError ∧
    (YamlBaseParser.get_error (errState yaml_error_type_t.YAML_SCANNER_ERROR)).map
      YamlError.kind = some YamlErrorType.YamlScannerError ∧
    (YamlBaseParser.get_error (errState yaml_error_type_t.YAML_PARSER_ERROR)).map
      YamlError.kind = some YamlErrorType.YamlParserError ∧
    (YamlBaseParser.get_error (errState yaml_error_type_t.YAML_COMPOSER_ERROR)).map
      YamlError.kind = some YamlErrorType.YamlComposerError ∧
    (YamlBaseParser.get_error (errState yaml_error_type_t.YAML_WRITER_ERROR)).map
      YamlError.kind = some YamlErrorType.YamlWriterError ∧
    (YamlBaseParser.get_error (errState yaml_error_type_t.YAML_EMITTER_ERROR)).map
      YamlError.kind = some YamlErrorType.YamlEmitterError := by
  decide

/-- Claim C2: one call to next_event returns the decoded typed event exactly
when the underlying engine step succeeds, and returns the error extracted by
get_error exactly when the step fails; no other outcome is possible.  In the
failure case the result is exactly the image of get_error, so an abort inside
get_error is the only way no error value is returned. -/
theorem claim_C2_next_event_raises_iff (p : YamlBaseParser) :
    (∀ evt p2, YamlParser.parse_event p = (some evt, p2) →
        YamlEventStream.next_event p = (some (Except.ok evt), p2)) ∧
    (∀ p2, YamlParser.parse_event p = (none, p2) →
        YamlEventStream.next_event p =
          ((YamlBaseParser.get_error p2).map Except.error, p2)) := by
  constructor
  · intro evt p2 h
    unfold YamlEventStream.next_event
    rw [h]
  · intro p2 h
    unfold YamlEventStream.next_event
    rw [h]
    cases hE : YamlBaseParser.get_error p2 <;> simp [hE]

/-- Witness for claim C2 at the concrete malformed-input parser: the first
step succeeds and next_event returns the decoded event, the second step fails
and next_event returns the extracted error. -/
theorem claim_C2_witness :
    YamlParser.parse_event abParser0 =
      (some (YamlEvent.YamlStreamStartEvent YamlEncoding.YamlUtf8Encoding),
       abParser1) ∧
    YamlEventStream.next_event abParser0 =
      (some (Except.ok
        (YamlEvent.YamlStreamStartEvent YamlEncoding.YamlUtf8Encoding)),
       abParser1) ∧
    YamlParser.parse_event abParser1 = (none, abParser2) ∧
    YamlEventStream.next_event abParser1 =
      ((YamlBaseParser.get_error abParser2).map Except.error, abParser2) :=
  ⟨by decide,
   (claim_C2_next_event_raises_iff abParser0).1
     (YamlEvent.YamlStreamStartEvent YamlEncoding.YamlUtf8Encoding)
     abParser1 (by decide),
   by decide,
   (claim_C2_next_event_raises_iff abParser1).2 abParser2 (by decide)⟩

/-- Claim C3: for every engine behaviour and every byte sequence, a byte
parser over the whole buffer and a streaming parser over a reader delivering
the same bytes in successful nonempty chunks produce identical stream
outcomes, events and errors alike, when stepped to completion. -/
theorem claim_C3_byte_io_equiv (em : List UInt8 → List EngineStep)
    (chunks : List (List UInt8)) (hne : ∀ c ∈ chunks, c ≠ [])
    (pb pio : YamlBaseParser)
    (hb : YamlByteParser.init em chunks.flatten true = some pb)
    (hio : YamlIoParser.init em (chunks.map Except.ok) true = some pio) :
    runStream pb = runStream pio := by
  simp only [YamlByteParser.init, if_true] at hb
  simp only [YamlIoParser.init, if_true] at hio
  have h3 : enginePullInput (chunks.map Except.ok) [] = some chunks.flatten := by
    simpa using enginePullInput_chunks chunks [] hne
  cases hb
  cases hio
  unfold YamlBaseParser.set_input_string yaml_parser_set_input
  rw [h3]

/-- Witness for claim C3: the flow sequence input split into two chunks gives
the same stream outcome as the whole buffer. -/
theorem claim_C3_witness :
    (∀ c ∈ chunksW, c ≠ ([] : List UInt8)) ∧ runStream pbW = runStream pioW :=
  ⟨by decide,
   claim_C3_byte_io_equiv specEngineModel chunksW (by decide) pbW pioW rfl rfl⟩

/-- Claim C4: on the flow sequence input the event stream driven to
completion produces exactly the nine events stream-start with Utf8 encoding,
implicit document-start, implicit flow sequence-start, the three plain
scalars 1, 2 and 3 with plain_implicit true and quoted_implicit false,
sequence-end, implicit document-end and stream-end, in this order. -/
theorem claim_C4_seq123_events :
    (YamlByteParser.init specEngineModel seq123Input true).map runStream =
      some (StreamOutcome.ended seq123Events) := by
  decide

/-- Claim C5: the callback bridge translates a successful read of a chunk
into writing the chunk length and returning 1, an end-of-file failure into
writing 0 and returning 1, and any other read failure into returning 0
without writing the out-parameter. -/
theorem claim_C5_handle_reader_cb (r r2 : ReaderState) :
    (∀ buf, Reader.read r = (Except.ok buf, r2) →
        handle_reader_cb r =
          ({ size_read := some buf.length, flag := 1, delivered := buf }, r2)) ∧
    (Reader.read r = (Except.error IoErrorKind.EndOfFile, r2) →
        handle_reader_cb r =
          ({ size_read := some 0, flag := 1, delivered := [] }, r2)) ∧
    (∀ k, k ≠ IoErrorKind.EndOfFile →
        Reader.read r = (Except.error k, r2) →
        handle_reader_cb r =
          ({ size_read := none, flag := 0, delivered := [] }, r2)) := by
  refine ⟨?_, ?_, ?_⟩
  · intro buf h
    unfold handle_reader_cb
    rw [h]
  · intro h
    unfold handle_reader_cb
    rw [h]
  · intro k hk h
    unfold handle_reader_cb
    rw [h]
    cases k
    · exact absurd rfl hk
    · rfl
    · rfl

/-- Witness for claim C5 at a concrete reader whose first read succeeds with
a two-byte chunk. -/
theorem claim_C5_witness :
    Reader.read r5ok =
      (Except.ok [10, 20], [Except.error IoErrorKind.OtherIoError]) ∧
    handle_reader_cb r5ok =
      ({ size_read := some 2, flag := 1, delivered := [10, 20] },
       [Except.error IoErrorKind.OtherIoError]) :=
  ⟨rfl,
   (claim_C5_handle_reader_cb r5ok
     [Except.error IoErrorKind.OtherIoError]).1 [10, 20] rfl⟩

/-- Claim C6: on the unterminated double-quoted input the first call to
next_event returns the stream-start event with Utf8 encoding and the second
call returns an error of kind ScannerError whose problem mark lies at or
after the opening quote at index 0. -/
theorem claim_C6_unterminated_quote :
    YamlByteParser.init specEngineModel abInput true = some abParser0 ∧
    YamlEventStream.next_event abParser0 =
      (some (Except.ok
        (YamlEvent.YamlStreamStartEvent YamlEncoding.YamlUtf8Encoding)),
       abParser1) ∧
    YamlEventStream.next_event abParser1 =
      (some (Except.error abError), abParser2) ∧
    abError.kind = YamlErrorType.YamlScannerError ∧
    0 ≤ abError.problem_mark.index := by
  decide

/-- Claim C7: with a failed engine initialize, both constructors abort and
return no parser and no Error value; with a successful initialize, both
return a parser already configured with its input source. -/
theorem claim_C7_init_fatal_or_configured
    (em : List UInt8 → List EngineStep) (bytes : List UInt8)
    (r : ReaderState) :
    YamlByteParser.init em bytes false = none ∧
    YamlIoParser.init em r false = none ∧
    (∃ p, YamlByteParser.init em bytes true = some p ∧
        p.parser_mem.steps = em bytes) ∧
    (∃ q, YamlIoParser.init em r true = some q ∧
        q = yaml_parser_set_input em YamlBaseParser.new r) :=
  ⟨rfl, rfl,
   ⟨YamlBaseParser.set_input_string em YamlBaseParser.new bytes, rfl, rfl⟩,
   ⟨yaml_parser_set_input em YamlBaseParser.new r, rfl, rfl⟩⟩

/-- Claim C8: every Error value produced by get_error has its context field
decoded from the same engine field as its problem field, so context always
equals problem. -/
theorem claim_C8_context_equals_problem (p : YamlBaseParser) (e : YamlError)
    (h : YamlBaseParser.get_error p = some e) : e.context = e.problem := by
  cases hc : p.parser_mem.error <;>
    simp [YamlBaseParser.get_error, hc] at h <;>
    (subst h; rfl)

/-- Witness for claim C8 at a concrete scanner-error state. -/
theorem claim_C8_witness :
    YamlBaseParser.get_error (errState yaml_error_type_t.YAML_SCANNER_ERROR) =
      some c8err ∧
    c8err.context = c8err.problem :=
  ⟨by decide,
   claim_C8_context_equals_problem
     (errState yaml_error_type_t.YAML_SCANNER_ERROR) c8err (by decide)⟩

/-- Claim C9: on the flow mapping input the event stream driven to completion
produces exactly the mapping events: both scalar keys are double-quoted with
quoted_implicit true and plain_implicit false, both scalar values are plain
with plain_implicit true and quoted_implicit false, and mapping-start and
mapping-end bracket exactly the four scalars in key, value, key, value
order. -/
theorem claim_C9_mapping_events :
    (YamlByteParser.init specEngineModel mappingInput true).map runStream =
      some (StreamOutcome.ended mappingEvents) := by
  decide

/-- Claim C10: for every parser state reached after a failed step, error
extraction leaves the parser state unchanged: its post-state equals its
input state, repeated extraction yields equal Error values, and subsequent
stepping behaviour is unaffected. -/
theorem claim_C10_get_error_frame (q p : YamlBaseParser)
    (h : YamlParser.parse_event q = (none, p)) :
    (YamlBaseParser.get_error_st p).2 = p ∧
    (YamlBaseParser.get_error_st ((YamlBaseParser.get_error_st p).2)).1 =
      (YamlBaseParser.get_error_st p).1 ∧
    YamlEventStream.next_event ((YamlBaseParser.get_error_st p).2) =
      YamlEventStream.next_event p ∧
    runStream ((YamlBaseParser.get_error_st p).2) = runStream p :=
  ⟨rfl, rfl, rfl, rfl⟩

/-- Witness for claim C10 at the concrete state reached after the failing
step on the malformed input. -/
theorem claim_C10_witness :
    YamlParser.parse_event abParser1 = (none, abParser2) ∧
    (YamlBaseParser.get_error_st abParser2).2 = abParser2 ∧
    runStream ((YamlBaseParser.get_error_st abParser2).2) =
      runStream abParser2 :=
  ⟨by decide,
   (claim_C10_get_error_frame abParser1 abParser2 (by decide)).1,
   (claim_C10_get_error_frame abParser1 abParser2 (by decide)).2.2.2⟩
